import Mathlib

/-!
# Verification of the request/response correlation layer of the
# metatrader4-client-python repository

This file gives a shallow embedding, in Lean 4, of the three correlator
variants of the repository:

* `MT4Client._get_response`                (src/mt4client/client.py, lines 304-339)
* `MetaTrader4ClientConnector.get_response` (src/client_connector.py, lines 62-97)
* `MetaTrader4Api.get_response`            (src/mt4_api.py, lines 22-56)

together with the receiver loop (`_poll_for_responses`) and `shutdown`,
and proves or refutes the testable properties of the specification.

Modelling conventions:

* Python values are modelled by `PyVal`; Python's `None` is the value
  `PyVal.none`.
* A response envelope is modelled by the structure `Envelope`, one field
  per dictionary key the source code reads.  A field whose only use in
  the source is `resp.get(key)` (where a present-but-null value is
  indistinguishable from an absent key) is modelled as a single
  `Option`; the `"response"` field, whose presence is distinguished by
  `resp.get("response", default)`, is modelled as `Option PyVal` with
  `Option.none` = key absent and `some PyVal.none` = key present bound
  to null.  The `"warnings"` field, whose presence is tested with
  `"warnings" in resp`, is modelled as `Option (List String)`.
* Wall time is discrete (an abstract unit, e.g. milliseconds): each
  `sleep(poll_delay)` advances the clock by `d` units, and the mailbox
  content over time is derived from a schedule of receiver-loop writes
  `writes : Nat → Option Envelope` (last write wins, as in the
  single-slot overwriting mailbox of the source).
* Raising an exception is modelled by returning `Outcome.err`; text
  printed to STDOUT is returned alongside the outcome.
-/

/-- A Python value, as far as the correlation layer inspects values.
`PyVal.none` is Python's `None`. -/
inductive PyVal where
  | none
  | bool (b : Bool)
  | int (n : Int)
  | str (s : String)
  deriving DecidableEq, Repr

/-- A response envelope: the decoded JSON object, restricted to the keys
the three correlator variants read.  See the modelling conventions above
for how presence/nullability is encoded per field. -/
structure Envelope where
  /-- key `"error_code"`, read only via `resp.get("error_code")`. -/
  error_code : Option Int := Option.none
  /-- key `"error_code_description"`, read only via `resp.get(...)`. -/
  error_code_description : Option String := Option.none
  /-- key `"error_message"`, read only via `resp.get(...)`. -/
  error_message : Option String := Option.none
  /-- key `"error"` (read only by `MetaTrader4Api.get_response`). -/
  error : Option String := Option.none
  /-- key `"errors"` (read only by `MetaTrader4Api.get_response`);
  presence is tested with `"errors" in resp`. -/
  errors : Option (List String) := Option.none
  /-- key `"warning"`, read via `resp.get("warning")`. -/
  warning : Option String := Option.none
  /-- key `"warnings"`; presence is tested with `"warnings" in resp`. -/
  warnings : Option (List String) := Option.none
  /-- key `"response"`; `Option.none` = key absent, `some v` = key
  present bound to `v` (possibly `PyVal.none`). -/
  response : Option PyVal := Option.none
  deriving DecidableEq, Repr

/-- The exception a call can raise. -/
inductive CallError where
  /-- Python `TimeoutError(timeout_message)`. -/
  | timeout (msg : String)
  /-- Python `MT4Error(error_code, error_code_description, error_message)`:
  the structured error carrying the `(code, description, message)` triple. -/
  | mt4Error (code : Option Int) (description : Option String)
      (message : Option String)
  /-- Python `Exception(text)`: the untyped error raised by
  `MetaTrader4Api.get_response`. -/
  | generic (text : String)
  deriving DecidableEq, Repr

/-- The result of a call: a returned value, or a raised exception. -/
inductive Outcome where
  | ok (v : PyVal)
  | err (e : CallError)
  deriving DecidableEq, Repr

/-- A call's observable behaviour: its outcome together with the lines
it printed to STDOUT. -/
structure CallResult where
  outcome : Outcome
  printed : List String
  deriving DecidableEq, Repr

/-- Python's rendering of an optional int inside an f-string:
`None` prints as `"None"`. -/
def pyShowOptInt : Option Int → String
  | Option.none => "None"
  | some n => toString n

/-- Python's rendering of an optional string inside an f-string:
`None` prints as `"None"`. -/
def pyShowOptStr : Option String → String
  | Option.none => "None"
  | some s => s

/-- The error/warning/unwrap section of `MT4Client._get_response`
(src/mt4client/client.py, lines 325-339), applied after the wait loop
has observed envelope `resp`:

```python
error_code = resp.get("error_code")
error_code_description = resp.get("error_code_description")
error_message = resp.get("error_message")
if not (error_code is None and error_code_description is None and error_message is None):
    raise MT4Error(error_code, error_code_description, error_message)
warning_message = resp.get("warning")
if warning_message is not None:
    print(str(warning_message))
return resp.get("response", default)
```
-/
def MT4Client.decodeEnvelope (resp : Envelope) (default : PyVal) : CallResult :=
  if ¬ (resp.error_code = Option.none ∧ resp.error_code_description = Option.none
      ∧ resp.error_message = Option.none) then
    { outcome := Outcome.err (CallError.mt4Error resp.error_code
        resp.error_code_description resp.error_message)
      printed := [] }
  else
    let printed := match resp.warning with
      | Option.none => []
      | some w => [w]
    { outcome := Outcome.ok (resp.response.getD default), printed := printed }

/-- The error/warning/unwrap section of
`MetaTrader4ClientConnector.get_response` (src/client_connector.py,
lines 83-97), applied after the wait loop has observed envelope `resp`:

```python
error_code = resp.get("error_code")
error_code_description = resp.get("error_code_description")
error_message = resp.get("error_message")
if not (error_code is None and error_code_description is None and error_message is None):
    raise MT4Error(error_code, error_code_description, error_message)
warning_message = "\n".join(resp["warnings"]) if "warnings" in resp else resp.get("warning")
if warning_message is not None:
    print(str(warning_message))
return resp.get("response", default)
```
-/
def MetaTrader4ClientConnector.decodeEnvelope (resp : Envelope)
    (default : PyVal) : CallResult :=
  if ¬ (resp.error_code = Option.none ∧ resp.error_code_description = Option.none
      ∧ resp.error_message = Option.none) then
    { outcome := Outcome.err (CallError.mt4Error resp.error_code
        resp.error_code_description resp.error_message)
      printed := [] }
  else
    let warning_message : Option String := match resp.warnings with
      | some ws => some (String.intercalate "\n" ws)
      | Option.none => resp.warning
    let printed := match warning_message with
      | Option.none => []
      | some w => [w]
    { outcome := Outcome.ok (resp.response.getD default), printed := printed }

/-- The error/warning/unwrap section of `MetaTrader4Api.get_response`
(src/mt4_api.py, lines 43-56), applied after the wait loop has observed
envelope `resp`:

```python
error_code = resp.get("error_code")
error_message = "\n".join(resp["errors"]) if "errors" in resp else resp.get("error")
if error_code is not None or error_message is not None:
    raise Exception(f"[\x7berror_code\x7d] \x7berror_message\x7d")
warning_message = "\n".join(resp["warnings"]) if "warnings" in resp else resp.get("warning")
if warning_message is not None:
    print(str(warning_message))
return resp.get("response", default)
```
-/
def MetaTrader4Api.decodeEnvelope (resp : Envelope) (default : PyVal) :
    CallResult :=
  let error_code := resp.error_code
  let error_message : Option String := match resp.errors with
    | some es => some (String.intercalate "\n" es)
    | Option.none => resp.error
  if error_code ≠ Option.none ∨ error_message ≠ Option.none then
    { outcome := Outcome.err (CallError.generic
        ("[" ++ pyShowOptInt error_code ++ "] " ++ pyShowOptStr error_message))
      printed := [] }
  else
    let warning_message : Option String := match resp.warnings with
      | some ws => some (String.intercalate "\n" ws)
      | Option.none => resp.warning
    let printed := match warning_message with
      | Option.none => []
      | some w => [w]
    { outcome := Outcome.ok (resp.response.getD default), printed := printed }

/-! ## The mailbox over time

`self._latest_response` is a single slot written by the receiver loop
(last write wins) and read by the caller's wait loop.  `slotFrom init
writes t` is its content at discrete time `t`, starting from content
`init`, when the receiver writes `writes u` (if anything) at time `u`. -/

/-- Mailbox content at time `t`: the most recent receiver write at or
before `t`, or `init` if there has been none. -/
def slotFrom (init : Option Envelope) (writes : Nat → Option Envelope) :
    Nat → Option Envelope
  | 0 => match writes 0 with
    | some e => some e
    | Option.none => init
  | t + 1 => match writes (t + 1) with
    | some e => some e
    | Option.none => slotFrom init writes t

/-! ## The wait loop

The following loop appears verbatim in all three variants
(src/mt4client/client.py lines 316-321, src/client_connector.py lines
74-79, src/mt4_api.py lines 34-39):

```python
start = time()
while self._latest_response is None:
    sleep(self._response_poll_delay)
    if (time() - start) > self._response_timeout:
        break
```

Each `sleep` advances the clock by `d` units; the deadline test compares
the elapsed time against `T` strictly.  `pollExitAux` returns the time
at which the loop exits; the fuel argument only serves termination and
is never exhausted when `1 ≤ d` (the loop body runs at most `T` times
before the deadline test fires). -/

/-- One unfolding per loop iteration of the wait loop; returns the clock
value at loop exit. -/
def pollExitAux (slot : Nat → Option Envelope) (T d : Nat) :
    Nat → Nat → Nat
  | 0, t => t
  | fuel + 1, t =>
    match slot t with
    | some _ => t
    | Option.none => if T < t + d then t + d else pollExitAux slot T d fuel (t + d)

/-- Exit time of the wait loop started at time 0. -/
def pollExit (slot : Nat → Option Envelope) (T d : Nat) : Nat :=
  pollExitAux slot T d (T + 2) 0

/-! ## The three call operations

Each variant clears the mailbox, sends the request (fire-and-forget; the
send only influences the outcome through the receiver-write schedule
`writes`, which models the peer's replies), runs the wait loop, raises
`TimeoutError(timeout_message)` if the slot is still empty, and
otherwise decodes the observed envelope. -/

/-- `MT4Client._get_response` (src/mt4client/client.py, lines 304-339).
`latest_response` is the slot content when the call begins (line 313
clears it before the send). -/
def MT4Client.getResponse (latest_response : Option Envelope)
    (writes : Nat → Option Envelope)
    (response_timeout response_poll_delay : Nat)
    (timeout_message : String) (default : PyVal) : CallResult :=
  let latest_response := (Option.none : Option Envelope)
  let slot := slotFrom latest_response writes
  let t := pollExit slot response_timeout response_poll_delay
  match slot t with
  | Option.none =>
      { outcome := Outcome.err (CallError.timeout timeout_message), printed := [] }
  | some resp => MT4Client.decodeEnvelope resp default

/-- `MetaTrader4ClientConnector.get_response` (src/client_connector.py,
lines 62-97).  `latest_response` is the slot content when the call
begins (line 71 clears it before the send). -/
def MetaTrader4ClientConnector.getResponse (latest_response : Option Envelope)
    (writes : Nat → Option Envelope)
    (response_timeout response_poll_delay : Nat)
    (timeout_message : String) (default : PyVal) : CallResult :=
  let latest_response := (Option.none : Option Envelope)
  let slot := slotFrom latest_response writes
  let t := pollExit slot response_timeout response_poll_delay
  match slot t with
  | Option.none =>
      { outcome := Outcome.err (CallError.timeout timeout_message), printed := [] }
  | some resp => MetaTrader4ClientConnector.decodeEnvelope resp default

/-- `MetaTrader4Api.get_response` (src/mt4_api.py, lines 22-56).
`latest_response` is `self._zmq.latest_response` when the call begins
(line 31 clears it before the send). -/
def MetaTrader4Api.getResponse (latest_response : Option Envelope)
    (writes : Nat → Option Envelope)
    (response_timeout response_poll_delay : Nat)
    (timeout_message : String) (default : PyVal) : CallResult :=
  let latest_response := (Option.none : Option Envelope)
  let slot := slotFrom latest_response writes
  let t := pollExit slot response_timeout response_poll_delay
  match slot t with
  | Option.none =>
      { outcome := Outcome.err (CallError.timeout timeout_message), printed := [] }
  | some resp => MetaTrader4Api.decodeEnvelope resp default

/-- The envelope, if any, that the wait loop observes at its exit time
(after the pre-send clear of the slot). -/
def observedEnvelope (writes : Nat → Option Envelope) (T d : Nat) :
    Option Envelope :=
  slotFrom Option.none writes (pollExit (slotFrom Option.none writes) T d)

/-- The value of `self._latest_response` immediately after
`MT4Client._get_response` returns or raises: lines 322-339 contain no
assignment to `self._latest_response`, so the slot keeps the value the
wait loop observed at its exit time. -/
def MT4Client.slotAfterCall (writes : Nat → Option Envelope) (T d : Nat) :
    Option Envelope :=
  slotFrom Option.none writes (pollExit (slotFrom Option.none writes) T d)

/-- The value of `self.latest_response` immediately after
`MetaTrader4ClientConnector.get_response` returns or raises: lines 80-97
contain no assignment to `self.latest_response`, so the slot keeps the
value the wait loop observed at its exit time. -/
def MetaTrader4ClientConnector.slotAfterCall (writes : Nat → Option Envelope)
    (T d : Nat) : Option Envelope :=
  slotFrom Option.none writes (pollExit (slotFrom Option.none writes) T d)

/-! ## The receiver loop

`_poll_for_responses` (src/mt4client/client.py lines 354-364,
src/client_connector.py lines 112-122, src/mt4_client_connector.py
lines 70-81):

```python
while self._is_running:
    if self._pull_socket.poll(SOCKET_POLL_TIMEOUT, zmq.POLLIN):
        try:
            response = self._pull_socket.recv_json(zmq.DONTWAIT)
            if response is not None:
                self._print_trace(...)
                self._latest_response = response
        except zmq.ZMQError as e:
            self._print_exception(e)
```

(the mt4_client_connector.py variant additionally sleeps
`self._sleep_delay` seconds at the top of the body).  Each iteration is
driven by one inbound event; the stop flag `_is_running` is external
state (written by `shutdown`) sampled at the top of each iteration.

Note the narrow `except` clause: it catches only `zmq.ZMQError`.  A
decode failure inside `recv_json` — malformed JSON raises
`json.JSONDecodeError` (a `ValueError`), invalid UTF-8 raises
`UnicodeDecodeError`, neither a `zmq.ZMQError` — propagates out of the
loop body uncaught and terminates the receiver thread mid-iteration. -/

/-- What the transport delivers during one iteration of the receiver
loop. -/
inductive PollEvent where
  /-- the socket poll timed out: no message available. -/
  | idle
  /-- a message was received and decoded to envelope `e`. -/
  | msg (e : Envelope)
  /-- `recv_json` returned `None` (line 360 then skips the write). -/
  | nullMsg
  /-- a `zmq.ZMQError` was raised while receiving; `text` is its
  rendering.  This is the only exception the `except` clause catches. -/
  | fault (text : String)
  /-- `recv_json` raised a decode error (e.g. `json.JSONDecodeError` on
  a malformed payload); `text` is its rendering.  Not a `zmq.ZMQError`,
  so the `except` clause does not catch it. -/
  | decodeFailure (text : String)
  deriving DecidableEq, Repr

/-- `true` exactly on the `decodeFailure` events (the exceptions the
`except zmq.ZMQError` clause does not catch). -/
def PollEvent.isDecodeFailure : PollEvent → Bool
  | PollEvent.decodeFailure _ => true
  | _ => false

/-- The body of one receiver-loop iteration: its effect on the pair
(mailbox slot, lines printed so far).  A `fault` is passed to
`_print_exception` and the loop body ends normally; a `decodeFailure`
escapes the body as an uncaught exception (`Except.error`). -/
def pollIteration (ev : PollEvent) :
    Option Envelope × List String →
      Except String (Option Envelope × List String)
  | (latest, log) =>
    match ev with
    | PollEvent.idle => Except.ok (latest, log)
    | PollEvent.nullMsg => Except.ok (latest, log)
    | PollEvent.msg e => Except.ok (some e, log)
    | PollEvent.fault s => Except.ok (latest, log ++ ["[MT4-ZMQ ERROR] " ++ s])
    | PollEvent.decodeFailure s => Except.error s

/-- How the receiver loop can end. -/
inductive LoopExit where
  /-- the stop flag read false at the top of an iteration: the loop
  exited normally. -/
  | stopped
  /-- an uncaught exception escaped the loop body, killing the receiver
  thread mid-iteration. -/
  | crashed (text : String)
  /-- the observation horizon (fuel) ran out while the loop was still
  running. -/
  | horizon
  deriving DecidableEq, Repr

/-- The receiver loop: starting before iteration `k` with state `st`,
run while `is_running` (sampled at the top of each iteration) is true.
Returns the index of the iteration at whose top (or during which, for a
crash) the loop ended, the final state, and how it ended.  The fuel
bounds the observation horizon only. -/
def pollForResponsesAux (is_running : Nat → Bool) (events : Nat → PollEvent) :
    Nat → Nat → Option Envelope × List String →
      Nat × (Option Envelope × List String) × LoopExit
  | 0, k, st => (k, st, LoopExit.horizon)
  | fuel + 1, k, st =>
    if is_running k then
      match pollIteration (events k) st with
      | Except.ok st' => pollForResponsesAux is_running events fuel (k + 1) st'
      | Except.error s => (k, st, LoopExit.crashed s)
    else (k, st, LoopExit.stopped)

/-- The receiver loop run from its start (iteration 0, empty slot,
nothing printed). -/
def pollForResponses (is_running : Nat → Bool) (events : Nat → PollEvent)
    (fuel : Nat) : Nat × (Option Envelope × List String) × LoopExit :=
  pollForResponsesAux is_running events fuel 0 (Option.none, [])

/-- The state after one iteration whose body completed (on a
`decodeFailure`, which never completes, the state is returned
unchanged; the lemmas below only use `pollStep` on completed
iterations). -/
def pollStep (events : Nat → PollEvent) (k : Nat)
    (st : Option Envelope × List String) : Option Envelope × List String :=
  match pollIteration (events k) st with
  | Except.ok st' => st'
  | Except.error _ => st

/-- The cumulative effect of running iterations `k, k+1, …, k+n-1` of
the receiver loop on a state. -/
def applyEvents (events : Nat → PollEvent) : Nat → Nat →
    Option Envelope × List String → Option Envelope × List String
  | _, 0, st => st
  | k, n + 1, st => applyEvents events (k + 1) n (pollStep events k st)

/-! ## Shutdown

`shutdown` (src/mt4_client_connector.py lines 47-55, identically in the
other two connector files):

```python
def shutdown(self):
    self._print_trace("Disconnecting...")
    self._is_running = False
    if self._response_poller is not None:
        self._response_poller.join()
    self._context.destroy(0)
```
-/

/-- The observable steps of `shutdown`, in program order. -/
inductive ShutdownStep where
  /-- `self._print_trace("Disconnecting...")` -/
  | printTrace
  /-- `self._is_running = False` -/
  | setStopFlag
  /-- `self._response_poller.join()` -/
  | joinReceiver
  /-- `self._context.destroy(0)` -/
  | destroyContext
  deriving DecidableEq, Repr

/-- The sequence of steps `shutdown` performs, in the order they appear
in the source. -/
def MetaTrader4ClientConnector.shutdown : List ShutdownStep :=
  [ShutdownStep.printTrace, ShutdownStep.setStopFlag,
   ShutdownStep.joinReceiver, ShutdownStep.destroyContext]

/-- `self._sleep_delay = float(socket_poll_interval) * 1000.0`
(src/mt4_client_connector.py line 28), a value in seconds passed to
`time.sleep`; expressed in milliseconds it is
`socket_poll_interval * 1000 * 1000`. -/
def MetaTrader4ClientConnector.sleepDelayMs (socket_poll_interval : Nat) :
    Nat :=
  socket_poll_interval * 1000 * 1000

/-- Worst-case duration, in milliseconds, of one iteration of
`MetaTrader4ClientConnector._poll_for_responses`
(src/mt4_client_connector.py lines 70-81): the `sleep(self._sleep_delay)`
at the top of the body plus a full
`self._pull_socket.poll(self._poll_timeout)` block. -/
def loopIterationPeriod (sleepMs pollTimeoutMs : Nat) : Nat :=
  sleepMs + pollTimeoutMs

/-- When every receiver-loop iteration takes `D` time units (iteration
`k` starts at time `k * D` and samples the stop flag at its start) and
the stop flag is set at time `s`, the loop observes the flag and exits
at the start of the first iteration at or after `s`. -/
def loopObserveStopTime (D s : Nat) : Nat :=
  D * ((s + D - 1) / D)

/-! ## Helper lemmas -/

/-- If nothing is ever written, the cleared slot stays empty. -/
theorem slotFrom_none_empty (t : Nat) :
    slotFrom Option.none (fun _ => Option.none) t = Option.none := by
  induction t with
  | zero => rfl
  | succ t ih => simpa [slotFrom] using ih

/-- Any envelope found in the slot after the clear was written by the
receiver at some time at or before the observation. -/
theorem slotFrom_none_some (writes : Nat → Option Envelope) (e : Envelope) :
    ∀ t, slotFrom Option.none writes t = some e →
      ∃ u, u ≤ t ∧ writes u = some e := by
  intro t
  induction t with
  | zero =>
    intro h
    refine ⟨0, Nat.le_refl 0, ?_⟩
    unfold slotFrom at h
    cases hw : writes 0 with
    | none => rw [hw] at h; exact absurd h (by simp)
    | some e' => rw [hw] at h; simpa [hw] using h
  | succ t ih =>
    intro h
    unfold slotFrom at h
    cases hw : writes (t + 1) with
    | none =>
      rw [hw] at h
      obtain ⟨u, hu, hwu⟩ := ih h
      exact ⟨u, Nat.le_succ_of_le hu, hwu⟩
    | some e' =>
      rw [hw] at h
      exact ⟨t + 1, Nat.le_refl _, by simpa [hw] using h⟩

/-- When the slot stays empty, the wait loop exits strictly after the
deadline `T` but no later than `T + d` (one extra poll delay). -/
theorem pollExitAux_empty_bounds (slot : Nat → Option Envelope) (T d : Nat)
    (hslot : ∀ u, slot u = Option.none) (hd : 1 ≤ d) :
    ∀ fuel t, t ≤ T → T + 1 ≤ t + fuel →
      T < pollExitAux slot T d fuel t ∧ pollExitAux slot T d fuel t ≤ T + d := by
  intro fuel
  induction fuel with
  | zero => intro t ht hfuel; omega
  | succ fuel ih =>
    intro t ht hfuel
    unfold pollExitAux
    simp only [hslot]
    by_cases hcond : T < t + d
    · rw [if_pos hcond]
      exact ⟨hcond, by omega⟩
    · rw [if_neg hcond]
      exact ih (t + d) (by omega) (by omega)

/-- Bounds for `pollExit` on an empty slot. -/
theorem pollExit_empty_bounds (slot : Nat → Option Envelope) (T d : Nat)
    (hslot : ∀ u, slot u = Option.none) (hd : 1 ≤ d) :
    T < pollExit slot T d ∧ pollExit slot T d ≤ T + d :=
  pollExitAux_empty_bounds slot T d hslot hd (T + 2) 0 (Nat.zero_le T) (by omega)

/-- The two MT4Error-raising decoders agree on the outcome (they differ
only in which warning fields they print). -/
theorem decode_outcome_eq (e : Envelope) (default : PyVal) :
    (MT4Client.decodeEnvelope e default).outcome
      = (MetaTrader4ClientConnector.decodeEnvelope e default).outcome := by
  unfold MT4Client.decodeEnvelope MetaTrader4ClientConnector.decodeEnvelope
  split
  · rfl
  · rfl

/-- An iteration whose event is not an uncaught decode failure completes
normally, producing the `pollStep` state. -/
theorem pollIteration_ok (events : Nat → PollEvent) (k : Nat)
    (st : Option Envelope × List String)
    (h : (events k).isDecodeFailure = false) :
    pollIteration (events k) st = Except.ok (pollStep events k st) := by
  obtain ⟨latest, log⟩ := st
  cases hev : events k with
  | idle => simp [pollIteration, pollStep, hev]
  | msg e => simp [pollIteration, pollStep, hev]
  | nullMsg => simp [pollIteration, pollStep, hev]
  | fault s => simp [pollIteration, pollStep, hev]
  | decodeFailure s =>
    rw [hev] at h
    simp [PollEvent.isDecodeFailure] at h

/-- Running the loop through `n` iterations at whose tops the stop flag
reads true and none of which raises an uncaught decode failure: the
loop neither stops nor crashes during them and accumulates their
effects. -/
theorem pollForResponsesAux_run (is_running : Nat → Bool)
    (events : Nat → PollEvent) :
    ∀ n fuel k st, (∀ j, j < n → is_running (k + j) = true) →
      (∀ j, j < n → (events (k + j)).isDecodeFailure = false) →
      n ≤ fuel →
      pollForResponsesAux is_running events fuel k st
        = pollForResponsesAux is_running events (fuel - n) (k + n)
            (applyEvents events k n st) := by
  intro n
  induction n with
  | zero => intro fuel k st _ _ _; rfl
  | succ n ih =>
    intro fuel k st hrun hnd hfuel
    match fuel, hfuel with
    | fuel + 1, hfuel =>
      conv_lhs => unfold pollForResponsesAux
      have hk : is_running k = true := by
        have := hrun 0 (Nat.succ_pos n)
        simpa using this
      rw [hk]
      simp only [if_true]
      have hstep := pollIteration_ok events k st
        (by simpa using hnd 0 (Nat.succ_pos n))
      rw [hstep]
      have h1 : ∀ j, j < n → is_running (k + 1 + j) = true := by
        intro j hj
        have := hrun (j + 1) (by omega)
        simpa [Nat.add_assoc, Nat.add_comm 1 j] using this
      have h2 : ∀ j, j < n → (events (k + 1 + j)).isDecodeFailure = false := by
        intro j hj
        have := hnd (j + 1) (by omega)
        simpa [Nat.add_assoc, Nat.add_comm 1 j] using this
      have h3 := ih fuel (k + 1) (pollStep events k st) h1 h2 (by omega)
      have e1 : fuel + 1 - (n + 1) = fuel - n := by omega
      have e2 : k + (n + 1) = k + 1 + n := by omega
      rw [e1, e2]
      exact h3

/-- A false stop-flag sample at the top of an iteration ends the loop
normally. -/
theorem pollForResponsesAux_stop (is_running : Nat → Bool)
    (events : Nat → PollEvent) (fuel k : Nat)
    (st : Option Envelope × List String) (h : is_running k = false)
    (hfuel : 0 < fuel) :
    pollForResponsesAux is_running events fuel k st
      = (k, st, LoopExit.stopped) := by
  match fuel, hfuel with
  | fuel + 1, _ =>
    unfold pollForResponsesAux
    rw [h]
    rfl

/-- An uncaught decode failure at an iteration whose top saw a true stop
flag kills the loop at that iteration: it ends `crashed`, not via the
stop flag. -/
theorem pollForResponsesAux_crash (is_running : Nat → Bool)
    (events : Nat → PollEvent) (fuel k : Nat)
    (st : Option Envelope × List String) (s : String)
    (hk : is_running k = true) (hev : events k = PollEvent.decodeFailure s)
    (hfuel : 0 < fuel) :
    pollForResponsesAux is_running events fuel k st
      = (k, st, LoopExit.crashed s) := by
  match fuel, hfuel with
  | fuel + 1, _ =>
    unfold pollForResponsesAux
    rw [hk]
    simp only [if_true]
    obtain ⟨latest, log⟩ := st
    rw [hev]
    rfl

/-- One completed iteration never removes log lines. -/
theorem pollStep_log_mono (events : Nat → PollEvent) (k : Nat)
    (st : Option Envelope × List String) (x : String) (hx : x ∈ st.2) :
    x ∈ (pollStep events k st).2 := by
  obtain ⟨latest, log⟩ := st
  cases hev : events k with
  | idle => simpa [pollStep, pollIteration, hev] using hx
  | msg e => simpa [pollStep, pollIteration, hev] using hx
  | nullMsg => simpa [pollStep, pollIteration, hev] using hx
  | fault s =>
    simp only [pollStep, pollIteration, hev]
    exact List.mem_append_left _ hx
  | decodeFailure s => simpa [pollStep, pollIteration, hev] using hx

/-- Whatever is already in the receiver-loop log stays there. -/
theorem applyEvents_log_mono (events : Nat → PollEvent) (x : String) :
    ∀ n k st, x ∈ st.2 → x ∈ (applyEvents events k n st).2 := by
  intro n
  induction n with
  | zero => intro k st hx; exact hx
  | succ n ih =>
    intro k st hx
    unfold applyEvents
    exact ih (k + 1) (pollStep events k st) (pollStep_log_mono events k st x hx)

/-- Every transport fault among the executed iterations leaves its log
line in the final log. -/
theorem applyEvents_fault_logged (events : Nat → PollEvent) (s : String) :
    ∀ n k j st, j < n → events (k + j) = PollEvent.fault s →
      ("[MT4-ZMQ ERROR] " ++ s) ∈ (applyEvents events k n st).2 := by
  intro n
  induction n with
  | zero => intro k j st hj; omega
  | succ n ih =>
    intro k j st hj hev
    unfold applyEvents
    match j, hj with
    | 0, _ =>
      rw [show k + 0 = k from rfl] at hev
      apply applyEvents_log_mono
      obtain ⟨latest, log⟩ := st
      simp only [pollStep, pollIteration, hev]
      exact List.mem_append_right _ (by simp)
    | j + 1, hj =>
      refine ih (k + 1) j _ (by omega) ?_
      have harith : k + 1 + j = k + (j + 1) := by omega
      rw [harith]
      exact hev

/-- If the wait loop observes envelope `e`, `MT4Client._get_response`
behaves as its decode section applied to `e`. -/
theorem client_getResponse_eq_decode (stale : Option Envelope)
    (writes : Nat → Option Envelope) (T d : Nat) (msg : String)
    (default : PyVal) (e : Envelope)
    (h : observedEnvelope writes T d = some e) :
    MT4Client.getResponse stale writes T d msg default
      = MT4Client.decodeEnvelope e default := by
  unfold observedEnvelope at h
  simp only [MT4Client.getResponse]
  rw [h]

/-- If the wait loop observes envelope `e`,
`MetaTrader4ClientConnector.get_response` behaves as its decode section
applied to `e`. -/
theorem connector_getResponse_eq_decode
    (stale : Option Envelope) (writes : Nat → Option Envelope) (T d : Nat)
    (msg : String) (default : PyVal) (e : Envelope)
    (h : observedEnvelope writes T d = some e) :
    MetaTrader4ClientConnector.getResponse stale writes T d msg default
      = MetaTrader4ClientConnector.decodeEnvelope e default := by
  unfold observedEnvelope at h
  simp only [MetaTrader4ClientConnector.getResponse]
  rw [h]

/-- If the wait loop still sees an empty slot at its exit,
`MT4Client._get_response` raises `TimeoutError(timeout_message)`. -/
theorem client_getResponse_timeout_eq (stale : Option Envelope)
    (writes : Nat → Option Envelope) (T d : Nat) (msg : String)
    (default : PyVal) (h : observedEnvelope writes T d = Option.none) :
    MT4Client.getResponse stale writes T d msg default
      = { outcome := Outcome.err (CallError.timeout msg), printed := [] } := by
  unfold observedEnvelope at h
  simp only [MT4Client.getResponse]
  rw [h]

/-- If the wait loop still sees an empty slot at its exit,
`MetaTrader4ClientConnector.get_response` raises
`TimeoutError(timeout_message)`. -/
theorem connector_getResponse_timeout_eq
    (stale : Option Envelope) (writes : Nat → Option Envelope) (T d : Nat)
    (msg : String) (default : PyVal)
    (h : observedEnvelope writes T d = Option.none) :
    MetaTrader4ClientConnector.getResponse stale writes T d msg default
      = { outcome := Outcome.err (CallError.timeout msg), printed := [] } := by
  unfold observedEnvelope at h
  simp only [MetaTrader4ClientConnector.getResponse]
  rw [h]

/-- On an envelope with a non-null error field, the `MT4Client` decode
section raises `MT4Error` with the triple and prints nothing. -/
theorem client_decode_error (e : Envelope) (default : PyVal)
    (h : ¬ (e.error_code = Option.none ∧ e.error_code_description = Option.none
        ∧ e.error_message = Option.none)) :
    MT4Client.decodeEnvelope e default
      = { outcome := Outcome.err (CallError.mt4Error e.error_code
            e.error_code_description e.error_message)
          printed := [] } := by
  unfold MT4Client.decodeEnvelope
  rw [if_pos h]

/-- On an envelope with a non-null error field, the
`MetaTrader4ClientConnector` decode section raises `MT4Error` with the
triple and prints nothing. -/
theorem connector_decode_error (e : Envelope)
    (default : PyVal)
    (h : ¬ (e.error_code = Option.none ∧ e.error_code_description = Option.none
        ∧ e.error_message = Option.none)) :
    MetaTrader4ClientConnector.decodeEnvelope e default
      = { outcome := Outcome.err (CallError.mt4Error e.error_code
            e.error_code_description e.error_message)
          printed := [] } := by
  unfold MetaTrader4ClientConnector.decodeEnvelope
  rw [if_pos h]

/-- On an error-free envelope, the `MT4Client` decode section returns
the response payload (or the default) and prints the `warning` field if
present. -/
theorem client_decode_no_error (e : Envelope) (default : PyVal)
    (h : e.error_code = Option.none ∧ e.error_code_description = Option.none
        ∧ e.error_message = Option.none) :
    MT4Client.decodeEnvelope e default
      = { outcome := Outcome.ok (e.response.getD default)
          printed := match e.warning with
            | Option.none => []
            | some w => [w] } := by
  unfold MT4Client.decodeEnvelope
  rw [if_neg (not_not_intro h)]

/-- On an error-free envelope, the `MetaTrader4ClientConnector` decode
section returns the response payload (or the default) and prints the
joined `warnings` list if present, else the `warning` field if present. -/
theorem connector_decode_no_error (e : Envelope)
    (default : PyVal)
    (h : e.error_code = Option.none ∧ e.error_code_description = Option.none
        ∧ e.error_message = Option.none) :
    MetaTrader4ClientConnector.decodeEnvelope e default
      = { outcome := Outcome.ok (e.response.getD default)
          printed := match (match e.warnings with
              | some ws => some (String.intercalate "\n" ws)
              | Option.none => e.warning) with
            | Option.none => []
            | some w => [w] } := by
  unfold MetaTrader4ClientConnector.decodeEnvelope
  rw [if_neg (not_not_intro h)]

/-- The stop-observation time lies between the signal time and one
iteration period later. -/
theorem loopObserveStopTime_bounds (D s : Nat) (hD : 0 < D) :
    s ≤ loopObserveStopTime D s ∧ loopObserveStopTime D s ≤ s + D := by
  unfold loopObserveStopTime
  have h1 := Nat.div_add_mod (s + D - 1) D
  have h2 : (s + D - 1) % D < D := Nat.mod_lt _ hD
  omega

/-! ## The claims -/

/-- C1 counterexample: the claim is false for the
`MetaTrader4Api.get_response` variant.  On an envelope whose only
non-null error field is `error_message`, that variant raises nothing at
all (it only inspects `error_code` and the `error`/`errors` keys) and
returns the fallback value instead of raising an `MT4Error` carrying the
`(code, description, message)` triple. -/
theorem C1_counterexample :
    (MetaTrader4Api.getResponse Option.none
        (fun _ => some { error_message := some "boom" }) 1 1 "timed out"
        PyVal.none).outcome = Outcome.ok PyVal.none
    ∧ (MetaTrader4Api.getResponse Option.none
        (fun _ => some { error_message := some "boom" }) 1 1 "timed out"
        PyVal.none).outcome
      ≠ Outcome.err (CallError.mt4Error Option.none Option.none (some "boom")) := by
  decide

/-- C1 (amended): for every envelope observed in the mailbox when the
wait ends whose `error_code`, `error_code_description` or
`error_message` field is non-null, the two MT4Error-raising correlator
variants — `MT4Client._get_response` and
`MetaTrader4ClientConnector.get_response` — raise an `MT4Error` carrying
exactly that `(code, description, message)` triple, even when a
`response` payload is also present; the `MetaTrader4Api.get_response`
variant instead inspects `error_code` and the `error`/`errors` keys and
raises an untyped exception, so the property holds only for the former
two variants. -/
theorem C1_amended_error_priority (stale : Option Envelope)
    (writes : Nat → Option Envelope) (T d : Nat) (msg : String)
    (default : PyVal) (e : Envelope)
    (hobs : observedEnvelope writes T d = some e)
    (herr : ¬ (e.error_code = Option.none
        ∧ e.error_code_description = Option.none
        ∧ e.error_message = Option.none)) :
    (MT4Client.getResponse stale writes T d msg default).outcome
      = Outcome.err (CallError.mt4Error e.error_code
          e.error_code_description e.error_message)
    ∧ (MetaTrader4ClientConnector.getResponse stale writes T d msg
        default).outcome
      = Outcome.err (CallError.mt4Error e.error_code
          e.error_code_description e.error_message) := by
  rw [client_getResponse_eq_decode stale writes T d msg default e hobs,
    connector_getResponse_eq_decode stale writes T d msg
      default e hobs,
    client_decode_error e default herr,
    connector_decode_error e default herr]
  exact ⟨rfl, rfl⟩

/-- C1 witness: a concrete envelope with `error_code = 131`,
`error_message = "Invalid price"` and a response payload makes both
variants raise `MT4Error(131, None, "Invalid price")`. -/
theorem C1_amended_error_priority_witness :
    (MT4Client.getResponse Option.none
        (fun _ => some { error_code := some 131, error_message := some "Invalid price", response := some (PyVal.int 7) })
        2 1 "t" PyVal.none).outcome
      = Outcome.err (CallError.mt4Error (some 131) Option.none
          (some "Invalid price"))
    ∧ (MetaTrader4ClientConnector.getResponse Option.none
        (fun _ => some { error_code := some 131, error_message := some "Invalid price", response := some (PyVal.int 7) })
        2 1 "t" PyVal.none).outcome
      = Outcome.err (CallError.mt4Error (some 131) Option.none
          (some "Invalid price")) :=
  C1_amended_error_priority Option.none
    (fun _ => some { error_code := some 131, error_message := some "Invalid price", response := some (PyVal.int 7) })
    2 1 "t" PyVal.none
    { error_code := some 131, error_message := some "Invalid price", response := some (PyVal.int 7) }
    (by decide) (by decide)

/-- C2: whenever an envelope with all three error fields null is
observed in the mailbox before the deadline, `MT4Client._get_response`
and `MetaTrader4ClientConnector.get_response` return exactly the
envelope's `response` value when the key is present (here via
`Option.getD`) and the caller-supplied `default` when the key is absent,
and raise no exception. -/
theorem C2_success_returns_response (stale : Option Envelope)
    (writes : Nat → Option Envelope) (T d : Nat) (msg : String)
    (default : PyVal) (e : Envelope)
    (hobs : observedEnvelope writes T d = some e)
    (hc : e.error_code = Option.none)
    (hdesc : e.error_code_description = Option.none)
    (hm : e.error_message = Option.none) :
    (MT4Client.getResponse stale writes T d msg default).outcome
      = Outcome.ok (e.response.getD default)
    ∧ (MetaTrader4ClientConnector.getResponse stale writes T d msg
        default).outcome
      = Outcome.ok (e.response.getD default) := by
  rw [client_getResponse_eq_decode stale writes T d msg default e hobs,
    connector_getResponse_eq_decode stale writes T d msg
      default e hobs,
    client_decode_no_error e default ⟨hc, hdesc, hm⟩,
    connector_decode_no_error e default ⟨hc, hdesc, hm⟩]
  exact ⟨rfl, rfl⟩

/-- C2 witness: a concrete error-free envelope carrying response `5`
makes both variants return `5`. -/
theorem C2_success_returns_response_witness :
    (MT4Client.getResponse Option.none
        (fun _ => some { response := some (PyVal.int 5) }) 2 1 "t"
        (PyVal.int 0)).outcome = Outcome.ok (PyVal.int 5)
    ∧ (MetaTrader4ClientConnector.getResponse Option.none
        (fun _ => some { response := some (PyVal.int 5) }) 2 1 "t"
        (PyVal.int 0)).outcome = Outcome.ok (PyVal.int 5) :=
  C2_success_returns_response Option.none
    (fun _ => some { response := some (PyVal.int 5) }) 2 1 "t"
    (PyVal.int 0) { response := some (PyVal.int 5) }
    (by decide) rfl rfl rfl

/-- C3: when the mailbox slot remains empty for the whole call, both
polling variants raise `TimeoutError` carrying the caller-supplied
message, and the wait loop's exit time (one discrete `sleep` of `d`
units per iteration) is strictly greater than the timeout `T` and at
most `T + d`. -/
theorem C3_timeout_bounds (stale : Option Envelope) (T d : Nat)
    (hd : 1 ≤ d) (msg : String) (default : PyVal) :
    MT4Client.getResponse stale (fun _ => Option.none) T d msg default
      = { outcome := Outcome.err (CallError.timeout msg), printed := [] }
    ∧ MetaTrader4ClientConnector.getResponse stale (fun _ => Option.none)
        T d msg default
      = { outcome := Outcome.err (CallError.timeout msg), printed := [] }
    ∧ T < pollExit (slotFrom Option.none fun _ => Option.none) T d
    ∧ pollExit (slotFrom Option.none fun _ => Option.none) T d ≤ T + d := by
  have hempty : ∀ u,
      slotFrom Option.none (fun _ => Option.none) u = Option.none :=
    slotFrom_none_empty
  have hbounds := pollExit_empty_bounds _ T d hempty hd
  exact ⟨client_getResponse_timeout_eq stale _ T d msg default (hempty _),
    connector_getResponse_timeout_eq stale _ T d msg default
      (hempty _),
    hbounds.1, hbounds.2⟩

/-- C3 witness: with timeout 3 and poll delay 2 and no response ever
arriving, both variants raise `TimeoutError("no answer")` and the loop
exits at time 4, which lies in the interval `(3, 3 + 2]`. -/
theorem C3_timeout_bounds_witness :
    MT4Client.getResponse Option.none (fun _ => Option.none) 3 2 "no answer"
        PyVal.none
      = { outcome := Outcome.err (CallError.timeout "no answer"),
          printed := [] }
    ∧ MetaTrader4ClientConnector.getResponse Option.none
        (fun _ => Option.none) 3 2 "no answer" PyVal.none
      = { outcome := Outcome.err (CallError.timeout "no answer"),
          printed := [] }
    ∧ 3 < pollExit (slotFrom Option.none fun _ => Option.none) 3 2
    ∧ pollExit (slotFrom Option.none fun _ => Option.none) 3 2 ≤ 3 + 2 :=
  C3_timeout_bounds Option.none 3 2 (by decide) "no answer" PyVal.none

/-- C4 counterexample: the claim is false.  With the stop flag held true
throughout and a single malformed message — an uncaught decode failure
raised inside `recv_json`, which the `except zmq.ZMQError` clause does
not catch — delivered at iteration 0, the receiver loop terminates at
once by crashing: it neither continues past the bad message nor exits
via a false stop-flag sample at the top of an iteration. -/
theorem C4_counterexample :
    pollForResponses (fun _ => true)
        (fun _ => PollEvent.decodeFailure "Expecting value") 5
      = (0, (Option.none, []), LoopExit.crashed "Expecting value")
    ∧ (pollForResponses (fun _ => true)
        (fun _ => PollEvent.decodeFailure "Expecting value") 5).2.2
      ≠ LoopExit.stopped := by
  decide

/-- C4 (amended): a transport error (`zmq.ZMQError`) while receiving one
message is logged and the receiver loop continues to its next iteration,
and as long as no uncaught decode failure occurs the loop terminates
only when the external stop flag is observed false at the top of an
iteration; but a decode error raised inside `recv_json` is not caught
(the `except` clause catches only `zmq.ZMQError`) and terminates the
receiver thread mid-iteration. -/
theorem C4_amended_receiver_loop (is_running : Nat → Bool)
    (events : Nat → PollEvent) (n fuel : Nat)
    (hrun : ∀ j, j < n → is_running j = true)
    (hnd : ∀ j, j < n → (events j).isDecodeFailure = false)
    (hfuel : n < fuel) :
    (is_running n = false →
      (pollForResponses is_running events fuel).1 = n
      ∧ (pollForResponses is_running events fuel).2.2 = LoopExit.stopped
      ∧ ∀ k s, k < n → events k = PollEvent.fault s →
          ("[MT4-ZMQ ERROR] " ++ s)
            ∈ (pollForResponses is_running events fuel).2.1.2)
    ∧ (∀ s, is_running n = true → events n = PollEvent.decodeFailure s →
        (pollForResponses is_running events fuel).1 = n
        ∧ (pollForResponses is_running events fuel).2.2
            = LoopExit.crashed s) := by
  have hrun0 : ∀ j, j < n → is_running (0 + j) = true := by
    intro j hj; simpa using hrun j hj
  have hnd0 : ∀ j, j < n → (events (0 + j)).isDecodeFailure = false := by
    intro j hj; simpa using hnd j hj
  have hdecomp := pollForResponsesAux_run is_running events n fuel 0
    (Option.none, []) hrun0 hnd0 (by omega)
  constructor
  · intro hstop
    unfold pollForResponses
    rw [hdecomp, pollForResponsesAux_stop is_running events (fuel - n) (0 + n)
      (applyEvents events 0 n (Option.none, [])) (by simpa using hstop)
      (by omega)]
    refine ⟨by simp, rfl, ?_⟩
    intro k s hk hev
    exact applyEvents_fault_logged events s n 0 k _ hk (by simpa using hev)
  · intro s hrunN hev
    unfold pollForResponses
    rw [hdecomp, pollForResponsesAux_crash is_running events (fuel - n) (0 + n)
      (applyEvents events 0 n (Option.none, [])) s (by simpa using hrunN)
      (by simpa using hev) (by omega)]
    exact ⟨by simp, rfl⟩

/-- C4 witness: with the stop flag first false at iteration 2, a
transport fault at iteration 0 and no decode failure, the loop stops
exactly at iteration 2 (not because of the fault) with the fault's log
line in the output. -/
theorem C4_amended_receiver_loop_witness :
    (pollForResponses (fun k => decide (k < 2))
        (fun k => if k = 0 then PollEvent.fault "boom" else PollEvent.idle)
        5).1 = 2
    ∧ (pollForResponses (fun k => decide (k < 2))
        (fun k => if k = 0 then PollEvent.fault "boom" else PollEvent.idle)
        5).2.2 = LoopExit.stopped
    ∧ ("[MT4-ZMQ ERROR] " ++ "boom")
        ∈ (pollForResponses (fun k => decide (k < 2))
            (fun k => if k = 0 then PollEvent.fault "boom" else PollEvent.idle)
            5).2.1.2 := by
  have h := C4_amended_receiver_loop (fun k => decide (k < 2))
    (fun k => if k = 0 then PollEvent.fault "boom" else PollEvent.idle)
    2 5 (by decide) (by decide) (by decide)
  have h1 := h.1 (by decide)
  exact ⟨h1.1, h1.2.1, h1.2.2 0 "boom" (by decide) rfl⟩

/-- C5 counterexample: the claim is false.  A call that consumes an
error-free envelope returns its payload, yet immediately afterwards the
mailbox slot (`self._latest_response`) still holds that envelope — the
function never clears the slot after the wait; the only clear happens
before the send. -/
theorem C5_counterexample :
    (MT4Client.getResponse Option.none
        (fun _ => some { response := some (PyVal.int 3) }) 1 1 "t"
        PyVal.none).outcome = Outcome.ok (PyVal.int 3)
    ∧ MT4Client.slotAfterCall (fun _ => some { response := some (PyVal.int 3) })
        1 1 = some { response := some (PyVal.int 3) }
    ∧ MT4Client.slotAfterCall (fun _ => some { response := some (PyVal.int 3) })
        1 1 ≠ Option.none := by
  decide

/-- C5 (amended): the call operation takes the envelope but does not
clear the slot as part of consuming it; the slot is cleared only at the
start of each call, before the send.  Immediately after a call that
consumed envelope `e` returns or raises an `MT4Error`, the slot still
holds `e`; the leftover envelope can nevertheless never satisfy the next
call, because the next call's own pre-send clear discards it. -/
theorem C5_amended_slot_not_cleared_on_consume (stale : Option Envelope)
    (writes writes' : Nat → Option Envelope) (T d T' d' : Nat)
    (msg msg' : String) (default default' : PyVal) (e : Envelope)
    (hobs : observedEnvelope writes T d = some e) :
    MT4Client.getResponse stale writes T d msg default
      = MT4Client.decodeEnvelope e default
    ∧ MT4Client.slotAfterCall writes T d = some e
    ∧ MetaTrader4ClientConnector.getResponse stale writes T d msg default
      = MetaTrader4ClientConnector.decodeEnvelope e default
    ∧ MetaTrader4ClientConnector.slotAfterCall writes T d = some e
    ∧ MT4Client.getResponse (MT4Client.slotAfterCall writes T d) writes' T' d'
        msg' default'
      = MT4Client.getResponse Option.none writes' T' d' msg' default' := by
  exact ⟨client_getResponse_eq_decode stale writes T d msg default e hobs,
    hobs,
    connector_getResponse_eq_decode stale writes T d msg
      default e hobs,
    hobs, rfl⟩

/-- C5 witness: a concrete consumed envelope remains in the slot after
the call, and a following call is unaffected by it. -/
theorem C5_amended_slot_not_cleared_on_consume_witness :
    MT4Client.getResponse Option.none
        (fun _ => some { response := some (PyVal.int 3) }) 1 1 "t" PyVal.none
      = MT4Client.decodeEnvelope { response := some (PyVal.int 3) } PyVal.none
    ∧ MT4Client.slotAfterCall (fun _ => some { response := some (PyVal.int 3) })
        1 1 = some { response := some (PyVal.int 3) }
    ∧ MetaTrader4ClientConnector.getResponse Option.none
        (fun _ => some { response := some (PyVal.int 3) }) 1 1 "t" PyVal.none
      = MetaTrader4ClientConnector.decodeEnvelope
          { response := some (PyVal.int 3) } PyVal.none
    ∧ MetaTrader4ClientConnector.slotAfterCall
        (fun _ => some { response := some (PyVal.int 3) }) 1 1
      = some { response := some (PyVal.int 3) }
    ∧ MT4Client.getResponse
        (MT4Client.slotAfterCall (fun _ => some { response := some (PyVal.int 3) }) 1 1)
        (fun _ => Option.none) 2 1 "u" PyVal.none
      = MT4Client.getResponse Option.none (fun _ => Option.none) 2 1 "u"
          PyVal.none :=
  C5_amended_slot_not_cleared_on_consume Option.none
    (fun _ => some { response := some (PyVal.int 3) }) (fun _ => Option.none)
    1 1 2 1 "t" "u" PyVal.none PyVal.none { response := some (PyVal.int 3) }
    (by decide)

/-- C6 counterexample: the claim is false for `MT4Client._get_response`.
On an error-free envelope carrying a `warnings` list (and no `warning`
field), that variant emits nothing at all: it only reads the single
`warning` key and ignores a `warnings` list entirely, so the joined
string is not printed. -/
theorem C6_counterexample :
    (MT4Client.decodeEnvelope { warnings := some ["w1", "w2"] }
        PyVal.none).printed = []
    ∧ String.intercalate "\n" ["w1", "w2"]
        ∉ (MT4Client.decodeEnvelope { warnings := some ["w1", "w2"] }
            PyVal.none).printed := by
  decide

/-- C6 (amended): for every error-free envelope,
`MetaTrader4ClientConnector.get_response` emits the `warnings` list
joined with newlines when present, and otherwise the single `warning`
string when present; `MT4Client._get_response` emits only the single
`warning` field and ignores a `warnings` list; in every case the
emission is non-fatal — the outcome is the same `response`-or-fallback
value regardless of the warning fields. -/
theorem C6_amended_warning_emission (e : Envelope) (default : PyVal)
    (ws : List String) (w : String)
    (hc : e.error_code = Option.none)
    (hdesc : e.error_code_description = Option.none)
    (hm : e.error_message = Option.none) :
    (e.warnings = some ws →
      (MetaTrader4ClientConnector.decodeEnvelope e default).printed
        = [String.intercalate "\n" ws])
    ∧ (e.warnings = Option.none → e.warning = some w →
      (MetaTrader4ClientConnector.decodeEnvelope e default).printed = [w])
    ∧ (e.warning = some w →
      (MT4Client.decodeEnvelope e default).printed = [w])
    ∧ (e.warnings = some ws → e.warning = Option.none →
      (MT4Client.decodeEnvelope e default).printed = [])
    ∧ (MT4Client.decodeEnvelope e default).outcome
        = Outcome.ok (e.response.getD default)
    ∧ (MetaTrader4ClientConnector.decodeEnvelope e default).outcome
        = Outcome.ok (e.response.getD default) := by
  have h1 := client_decode_no_error e default ⟨hc, hdesc, hm⟩
  have h2 := connector_decode_no_error e default ⟨hc, hdesc, hm⟩
  refine ⟨?_, ?_, ?_, ?_, ?_, ?_⟩
  · intro hws; rw [h2]; simp only [hws]
  · intro hws hw; rw [h2]; simp only [hws, hw]
  · intro hw; rw [h1]; simp only [hw]
  · intro hws hw; rw [h1]; simp only [hw]
  · rw [h1]
  · rw [h2]

/-- C6 witness: at a concrete error-free envelope with
`warnings = ["w1", "w2"]` and no `warning` field, the connector variant
prints the joined string, the client variant prints nothing, and both
return the payload. -/
theorem C6_amended_warning_emission_witness :
    ((Envelope.mk Option.none Option.none Option.none Option.none Option.none
        Option.none (some ["w1", "w2"]) (some (PyVal.int 9))).warnings
      = some ["w1", "w2"] →
      (MetaTrader4ClientConnector.decodeEnvelope
          { warnings := some ["w1", "w2"], response := some (PyVal.int 9) }
          PyVal.none).printed = [String.intercalate "\n" ["w1", "w2"]])
    ∧ ((Envelope.mk Option.none Option.none Option.none Option.none Option.none
        Option.none (some ["w1", "w2"]) (some (PyVal.int 9))).warnings
      = Option.none →
      (Envelope.mk Option.none Option.none Option.none Option.none Option.none
        Option.none (some ["w1", "w2"]) (some (PyVal.int 9))).warning = some "w0" →
      (MetaTrader4ClientConnector.decodeEnvelope
          { warnings := some ["w1", "w2"], response := some (PyVal.int 9) }
          PyVal.none).printed = ["w0"])
    ∧ ((Envelope.mk Option.none Option.none Option.none Option.none Option.none
        Option.none (some ["w1", "w2"]) (some (PyVal.int 9))).warning = some "w0" →
      (MT4Client.decodeEnvelope
          { warnings := some ["w1", "w2"], response := some (PyVal.int 9) }
          PyVal.none).printed = ["w0"])
    ∧ ((Envelope.mk Option.none Option.none Option.none Option.none Option.none
        Option.none (some ["w1", "w2"]) (some (PyVal.int 9))).warnings
      = some ["w1", "w2"] →
      (Envelope.mk Option.none Option.none Option.none Option.none Option.none
        Option.none (some ["w1", "w2"]) (some (PyVal.int 9))).warning
      = Option.none →
      (MT4Client.decodeEnvelope
          { warnings := some ["w1", "w2"], response := some (PyVal.int 9) }
          PyVal.none).printed = [])
    ∧ (MT4Client.decodeEnvelope
        { warnings := some ["w1", "w2"], response := some (PyVal.int 9) }
        PyVal.none).outcome = Outcome.ok (PyVal.int 9)
    ∧ (MetaTrader4ClientConnector.decodeEnvelope
        { warnings := some ["w1", "w2"], response := some (PyVal.int 9) }
        PyVal.none).outcome = Outcome.ok (PyVal.int 9) :=
  C6_amended_warning_emission
    { warnings := some ["w1", "w2"], response := some (PyVal.int 9) }
    PyVal.none ["w1", "w2"] "w0" rfl rfl rfl

/-- C7 counterexample: the claim is false in its bound.  With the
constructor defaults of `MetaTrader4ClientConnector`
(`socket_poll_interval = 1`, hence a `sleep` of
`1 * 1000.0` seconds = 1000000 ms at the top of each loop body, and
`socket_poll_timeout = 1000` ms), a stop flag set at time 1 ms is only
observed 1000999 ms later — far more than the claimed bound of one
socket poll timeout (1000 ms). -/
theorem C7_counterexample :
    1000 <
      loopObserveStopTime
          (loopIterationPeriod (MetaTrader4ClientConnector.sleepDelayMs 1) 1000)
          1
        - 1 := by
  decide

/-- C7 (amended): `shutdown` sets the stop flag before joining the
receiver loop and joins before destroying the transport context, and the
join returns within a bounded delay of at most one loop-iteration
period — which for `MetaTrader4ClientConnector._poll_for_responses` is
the sleep delay plus the socket poll timeout, not the socket poll
timeout alone; in particular the operation never blocks indefinitely. -/
theorem C7_amended_shutdown_join_bound (sleepMs pollTimeoutMs s : Nat)
    (hpos : 0 < loopIterationPeriod sleepMs pollTimeoutMs) :
    (MetaTrader4ClientConnector.shutdown.indexOf ShutdownStep.setStopFlag
        < MetaTrader4ClientConnector.shutdown.indexOf ShutdownStep.joinReceiver
      ∧ MetaTrader4ClientConnector.shutdown.indexOf ShutdownStep.joinReceiver
        < MetaTrader4ClientConnector.shutdown.indexOf ShutdownStep.destroyContext)
    ∧ s ≤ loopObserveStopTime (loopIterationPeriod sleepMs pollTimeoutMs) s
    ∧ loopObserveStopTime (loopIterationPeriod sleepMs pollTimeoutMs) s
        ≤ s + loopIterationPeriod sleepMs pollTimeoutMs := by
  have hb := loopObserveStopTime_bounds (loopIterationPeriod sleepMs pollTimeoutMs)
    s hpos
  exact ⟨⟨by decide, by decide⟩, hb.1, hb.2⟩

/-- C7 witness: with the default configuration (sleep 1000000 ms, poll
timeout 1000 ms) and the stop flag set at time 1, the loop observes the
flag no earlier than time 1 and within one iteration period. -/
theorem C7_amended_shutdown_join_bound_witness :
    (MetaTrader4ClientConnector.shutdown.indexOf ShutdownStep.setStopFlag
        < MetaTrader4ClientConnector.shutdown.indexOf ShutdownStep.joinReceiver
      ∧ MetaTrader4ClientConnector.shutdown.indexOf ShutdownStep.joinReceiver
        < MetaTrader4ClientConnector.shutdown.indexOf ShutdownStep.destroyContext)
    ∧ 1 ≤ loopObserveStopTime (loopIterationPeriod 1000000 1000) 1
    ∧ loopObserveStopTime (loopIterationPeriod 1000000 1000) 1
        ≤ 1 + loopIterationPeriod 1000000 1000 :=
  C7_amended_shutdown_join_bound 1000000 1000 1 (by decide)

/-- C8: the mailbox slot is cleared before the request is sent, so the
call's result does not depend on whatever stale envelope was in the slot
when the call began, and any envelope the wait consumes was written into
the slot by the receiver at some time after the clear (at or before the
loop's exit). -/
theorem C8_clear_before_send (stale stale' : Option Envelope)
    (writes : Nat → Option Envelope) (T d : Nat) (msg : String)
    (default : PyVal) (e : Envelope) :
    MT4Client.getResponse stale writes T d msg default
      = MT4Client.getResponse stale' writes T d msg default
    ∧ MetaTrader4ClientConnector.getResponse stale writes T d msg default
      = MetaTrader4ClientConnector.getResponse stale' writes T d msg default
    ∧ (observedEnvelope writes T d = some e →
        ∃ u, u ≤ pollExit (slotFrom Option.none writes) T d
          ∧ writes u = some e) := by
  refine ⟨rfl, rfl, ?_⟩
  intro h
  unfold observedEnvelope at h
  exact slotFrom_none_some writes e _ h

/-- C8 witness: with a stale envelope in the slot at call start and the
receiver writing a fresh envelope, the call behaves as if the slot had
been empty, and the consumed envelope is one of the receiver's writes. -/
theorem C8_clear_before_send_witness :
    (MT4Client.getResponse (some { response := some (PyVal.int 1) })
        (fun _ => some { response := some (PyVal.int 2) }) 1 1 "t" PyVal.none
      = MT4Client.getResponse Option.none
          (fun _ => some { response := some (PyVal.int 2) }) 1 1 "t" PyVal.none)
    ∧ (∃ u, u ≤ pollExit
          (slotFrom Option.none fun _ => some { response := some (PyVal.int 2) })
          1 1
        ∧ (fun _ => some { response := some (PyVal.int 2) } : Nat → Option Envelope) u
            = some { response := some (PyVal.int 2) }) := by
  have h := C8_clear_before_send (some { response := some (PyVal.int 1) })
    Option.none (fun _ => some { response := some (PyVal.int 2) }) 1 1 "t"
    PyVal.none { response := some (PyVal.int 2) }
  exact ⟨h.1, h.2.2 (by decide)⟩

/-- C9: the two polling-mailbox correlator variants
`MT4Client._get_response` and `MetaTrader4ClientConnector.get_response`
produce the same outcome on every slot history, timeout, poll delay,
timeout message and fallback: the same `MT4Error` triples on the same
envelopes, `TimeoutError` with the same message under the same
empty-mailbox condition, and the same returned value otherwise (they
differ only in which warning text they print). -/
theorem C9_variants_agree (stale : Option Envelope)
    (writes : Nat → Option Envelope) (T d : Nat) (msg : String)
    (default : PyVal) :
    (MT4Client.getResponse stale writes T d msg default).outcome
      = (MetaTrader4ClientConnector.getResponse stale writes T d msg
          default).outcome := by
  cases hobs : observedEnvelope writes T d with
  | none =>
    rw [client_getResponse_timeout_eq stale writes T d msg default hobs,
      connector_getResponse_timeout_eq stale writes T d msg
        default hobs]
  | some e =>
    rw [client_getResponse_eq_decode stale writes T d msg default e hobs,
      connector_getResponse_eq_decode stale writes T d msg
        default e hobs]
    exact decode_outcome_eq e default

/-- C10: on an error-free envelope whose `response` key is present but
bound to null, both polling variants return Python `None`, not the
caller-supplied fallback; the fallback is returned only when the
`response` key is entirely absent. -/
theorem C10_null_response_returned (e : Envelope) (default : PyVal)
    (hc : e.error_code = Option.none)
    (hdesc : e.error_code_description = Option.none)
    (hm : e.error_message = Option.none) :
    (e.response = some PyVal.none →
      (MT4Client.decodeEnvelope e default).outcome = Outcome.ok PyVal.none
      ∧ (MetaTrader4ClientConnector.decodeEnvelope e default).outcome
          = Outcome.ok PyVal.none)
    ∧ (e.response = Option.none →
      (MT4Client.decodeEnvelope e default).outcome = Outcome.ok default
      ∧ (MetaTrader4ClientConnector.decodeEnvelope e default).outcome
          = Outcome.ok default) := by
  have h1 := client_decode_no_error e default ⟨hc, hdesc, hm⟩
  have h2 := connector_decode_no_error e default
    ⟨hc, hdesc, hm⟩
  refine ⟨fun hr => ⟨?_, ?_⟩, fun hr => ⟨?_, ?_⟩⟩
  · rw [h1]; simp [hr]
  · rw [h2]; simp [hr]
  · rw [h1]; simp [hr]
  · rw [h2]; simp [hr]

/-- C10 witness: with fallback `7` and a present-but-null `response`
key, both decoders return `None` rather than `7`; with the key absent,
both return `7`. -/
theorem C10_null_response_returned_witness :
    (({ response := some PyVal.none } : Envelope).response = some PyVal.none →
      (MT4Client.decodeEnvelope { response := some PyVal.none }
          (PyVal.int 7)).outcome = Outcome.ok PyVal.none
      ∧ (MetaTrader4ClientConnector.decodeEnvelope
          { response := some PyVal.none } (PyVal.int 7)).outcome
          = Outcome.ok PyVal.none)
    ∧ (({ response := some PyVal.none } : Envelope).response = Option.none →
      (MT4Client.decodeEnvelope { response := some PyVal.none }
          (PyVal.int 7)).outcome = Outcome.ok (PyVal.int 7)
      ∧ (MetaTrader4ClientConnector.decodeEnvelope
          { response := some PyVal.none } (PyVal.int 7)).outcome
          = Outcome.ok (PyVal.int 7)) :=
  C10_null_response_returned { response := some PyVal.none } (PyVal.int 7)
    rfl rfl rfl
